import Mathlib

/-!
Shallow embedding of the weather_analyse repository (src/fetch.py and
src/analyse.py): the record extractor, the month fetcher, the year
orchestrator, the durable tabular store, and the aggregation helpers,
together with theorems settling the specification claims C1 to C10.
-/

namespace WeatherAnalyse

/-- The characters Python str.strip with no arguments removes (ASCII
whitespace; the exotic unicode spaces never occur in this data). -/
def isPySpace (c : Char) : Bool :=
  c = ' ' || c = '\t' || c = '\n' || c = '\r' || c = '\x0b' || c = '\x0c'

/-- Python str.strip with no arguments as used on the cell fragments:
remove leading and trailing whitespace. -/
def pyStrip (s : String) : String :=
  String.mk (((s.data.dropWhile isPySpace).reverse.dropWhile isPySpace).reverse)

/-- Python s.lstrip(c): remove every leading occurrence of the character c. -/
def lstrip (c : Char) (s : String) : String :=
  String.mk (s.data.dropWhile (fun x => x = c))

/-- Python s.rstrip(c): remove every trailing occurrence of the character c. -/
def rstrip (c : Char) (s : String) : String :=
  String.mk ((s.data.reverse.dropWhile (fun x => x = c)).reverse)

/-- Python s.split(sep) for a single separator character: split at every
occurrence, keeping empty pieces, with the empty string giving one empty
piece. -/
def splitCharList (sep : Char) : List Char → List (List Char)
  | [] => [[]]
  | x :: xs =>
      match splitCharList sep xs with
      | [] => [[]]
      | h :: t => if x = sep then [] :: h :: t else (x :: h) :: t

/-- Python s.split(sep) on strings, for a single separator character. -/
def pySplit (sep : Char) (s : String) : List String :=
  (splitCharList sep s.data).map String.mk

/-- Python int(s) for the decimal digit strings this program passes as year
and month arguments (int on a non-numeric string raises ValueError in
Python and is outside this model; every call site in the claims passes a
digit string, for which the fallback branch is unreachable). -/
def pyInt (s : String) : Nat :=
  if s.data ≠ [] ∧ s.data.all Char.isDigit then
    s.data.foldl (fun n c => n * 10 + (c.toNat - 48)) 0
  else 0

/-- All ways of splitting s as pre ++ [c] ++ post with pre free of the
newline character (the regex dot does not cross a newline), longest pre
first: exactly the candidate order a greedy backtracking group followed by
the literal c tries in Python re. -/
def splitsAt (c : Char) : List Char → List (List Char × List Char)
  | [] => []
  | x :: xs =>
      (if x = '\n' then []
       else (splitsAt c xs).map (fun p => (x :: p.1, p.2))) ++
      (if x = c then [([], xs)] else [])

/-- Greedy backtracking matcher for a regex that is an alternation-free
sequence of a dot-star group followed by a literal, repeated: applied as a
prefix match the way Python re.match anchors at the start and leaves the
tail unconstrained. Returns the captured groups of the first successful
candidate, which is the greedy (leftmost-longest per group) one. -/
def matchGroups : List Char → List Char → Option (List (List Char))
  | [], _ => some []
  | c :: cs, s =>
      (splitsAt c s).findSome? (fun p => (matchGroups cs p.2).map (p.1 :: ·))

/-- src/fetch.py line 88: re.match of the date pattern with the three
groups between the literal characters for year, month and day; returns the
three captured groups, or none when the pattern does not match. (The
source's extra check that the match has exactly three groups is vacuous:
this pattern always captures three groups.) -/
def matchDate (s : String) : Option (String × String × String) :=
  match matchGroups ['年', '月', '日'] s.data with
  | some [g1, g2, g3] => some (String.mk g1, String.mk g2, String.mk g3)
  | _ => none

/-- The four td cell texts of one table row, in source order: date cell,
condition cell, temperature cell, wind cell. (The source indexes
columns[0] through columns[3]; rows that are not genuine tag elements are
skipped before this point and are not modelled.) -/
structure RawRow where
  dateCell : String
  condCell : String
  tempCell : String
  windCell : String
deriving DecidableEq, Repr

/-- Shared shape of the three category mini-parsers of src/fetch.py lines
96 to 121: split the cell on the slash character; when the split yields
exactly two parts apply f to each part, otherwise fall back to a pair of
empty strings. -/
def splitPairWith (f : String → String) (cell : String) : String × String :=
  match pySplit '/' cell with
  | [a, b] => (f a, f b)
  | _ => ("", "")

/-- src/fetch.py lines 96 to 103: day and night weather condition. -/
def condFields (cell : String) : String × String := splitPairWith pyStrip cell

/-- src/fetch.py lines 105 to 112: high and low temperature, stripped and
with the trailing degree sign removed. -/
def tempFields (cell : String) : String × String :=
  splitPairWith (fun t => rstrip '℃' (pyStrip t)) cell

/-- src/fetch.py lines 114 to 121: day and night wind. -/
def windFields (cell : String) : String × String := splitPairWith pyStrip cell

/-- src/fetch.py lines 88 to 124, one iteration of the row loop: the row
appended to the sheet for one table row, or none when the date cell does
not match and the row is skipped. The month argument is the already
zero-padded month string of the enclosing function. -/
def extractRow (year month : String) (r : RawRow) : Option (List String) :=
  match matchDate r.dateCell with
  | none => none
  | some (_, _, g3) =>
      let day := lstrip '0' g3
      let cf := condFields r.condCell
      let tf := tempFields r.tempCell
      let wf := windFields r.windCell
      some [year, lstrip '0' month, day, cf.1, cf.2, tf.1, tf.2, wf.1, wf.2]

/-- src/fetch.py lines 82 to 126: the rows appended by the loop over the
table rows after the header, in order. -/
def processRows (year month : String) (rows : List RawRow) : List (List String) :=
  rows.filterMap (extractRow year month)

/-- src/fetch.py line 10: the base of every request URL. -/
def url_base : String := "https://www.tianqihoubao.com/lishi/"

/-- The fixed 9-column header row appended on file creation
(src/fetch.py lines 49 and 156). -/
def header : List String :=
  ["年", "月", "日", "白天天气", "夜间天气", "最高温度/℃", "最低温度/℃",
   "白天风力风向", "夜间风力风向"]

/-- The current calendar date, datetime.datetime.now(), read by the
validation checks of src/fetch.py lines 26 and 30. -/
structure Now where
  year : Nat
  month : Nat
deriving DecidableEq, Repr

/-- One worksheet: the ordered list of its rows, each a list of cell
strings. -/
abbrev Sheet := List (List String)

/-- The durable backing store: which dataset names have a saved workbook,
and with which rows. Models the data directory of xlsx files. -/
abbrev World := List (String × Sheet)

/-- Content of the saved workbook for a dataset name, if one exists. -/
def getFile (w : World) (k : String) : Option Sheet :=
  match w with
  | [] => none
  | (k₁, v) :: rest => if k₁ = k then some v else getFile rest k

/-- Durably write the workbook for a dataset name, replacing any previous
version (wb.save overwrites the file). -/
def setFile (w : World) (k : String) (v : Sheet) : World :=
  match w with
  | [] => [(k, v)]
  | (k₁, v₁) :: rest => if k₁ = k then (k, v) :: rest else (k₁, v₁) :: setFile rest k v

/-- The file argument of fetch_weather_data: either a dataset name (the
str branch, backed by a durable file) or an in-memory workbook (the
Workbook branch, whose sheet the caller owns and saves). -/
inductive FileArg
  | name (s : String)
  | workbook (sheet : Sheet)
deriving DecidableEq, Repr

/-- Outcome of the one network retrieval of src/fetch.py line 72: a
non-success HTTP status, a success whose body has no weather-table tag, or
a success with the table's tr rows (header row included, the loop skips
it). -/
inductive Response
  | httpError
  | noTable
  | page (trRows : List RawRow)
deriving DecidableEq, Repr

/-- Observable side effects of a run, in order: opening or creating the
backing file for a dataset (created is true when the header-only file was
freshly written), issuing the one HTTP GET, and durably saving a dataset.
Opening with creation persists the header-only file as part of the
open-or-create step (src/fetch.py lines 41 to 51 and 148 to 158). -/
inductive Event
  | openOrCreate (dataset : String) (created : Bool)
  | netRequest (url : String)
  | save (dataset : String)
deriving DecidableEq, Repr

/-- True exactly on save events. -/
def isSave : Event → Bool
  | .save _ => true
  | _ => false

/-- State after a call: the durable store, the in-memory sheet the call
operated on (unchanged input sheet when nothing was appended; empty when
the call returned before a sheet existed), and the emitted events. -/
structure FetchOutcome where
  world : World
  sheet : Sheet
  events : List Event
deriving DecidableEq, Repr

/-- The in-memory sheet a call starts from: the caller's sheet in workbook
mode, nothing yet in name mode. -/
def inputSheet : FileArg → Sheet
  | .name _ => []
  | .workbook sh => sh

/-- src/fetch.py line 26: the year guard. -/
def yearOutOfRange (now : Now) (year : String) : Bool :=
  pyInt year < 2011 || pyInt year > now.year

/-- src/fetch.py line 30: the month guard, including the future-month
check within the current year. -/
def monthOutOfRange (now : Now) (year month : String) : Bool :=
  pyInt month < 1 || pyInt month > 12 ||
    (pyInt year == now.year && pyInt month > now.month)

/-- src/fetch.py lines 34 and 35: left-pad a one-character month string
with a zero. -/
def padMonth (month : String) : String :=
  if month.data.length = 1 then "0" ++ month else month

/-- src/fetch.py line 71: the request URL. -/
def requestUrl (city year paddedMonth : String) : String :=
  url_base ++ city ++ "/month/" ++ year ++ paddedMonth ++ ".html"

/-- The in-memory sheet obtained by the open-or-create step for a dataset
name: the header-only sheet of a fresh workbook when no backing file
exists, the loaded rows otherwise (src/fetch.py lines 41 to 59 and 148
to 161). -/
def openSheet (w : World) (fname : String) : Sheet :=
  match getFile w fname with
  | none => [header]
  | some rows => rows

/-- The durable store after the open-or-create step: creating a missing
backing file persists the header-only workbook at once (the wb.save of
src/fetch.py lines 50 and 157); an existing file is only read. -/
def openWorld (w : World) (fname : String) : World :=
  match getFile w fname with
  | none => setFile w fname [header]
  | some _ => w

/-- src/fetch.py lines 13 to 134, fetch_weather_data: validate the year
and month, open or create (name mode) or adopt (workbook mode) the sheet,
issue the one request, run the row loop on success, and save the file in
name mode only. The response argument stands for what the network returns
for the built URL. -/
def fetch_weather_data (now : Now) (file : FileArg) (city year month : String)
    (resp : Response) (w : World) : FetchOutcome :=
  if yearOutOfRange now year then ⟨w, inputSheet file, []⟩
  else if monthOutOfRange now year month then ⟨w, inputSheet file, []⟩
  else
    let m := padMonth month
    let opened : World × Sheet × List Event × Option String :=
      match file with
      | .name s =>
          (openWorld w s, openSheet w s,
           [Event.openOrCreate s (getFile w s).isNone], some s)
      | .workbook sh => (w, sh, [], none)
    let w₁ := opened.1
    let sheet₀ := opened.2.1
    let ev₀ := opened.2.2.1
    let evNet := Event.netRequest (requestUrl city year m)
    match resp with
    | .httpError => ⟨w₁, sheet₀, ev₀ ++ [evNet]⟩
    | .noTable => ⟨w₁, sheet₀, ev₀ ++ [evNet]⟩
    | .page trRows =>
        let newSheet := sheet₀ ++ processRows year m (trRows.drop 1)
        match opened.2.2.2 with
        | some s => ⟨setFile w₁ s newSheet, newSheet, ev₀ ++ [evNet, Event.save s]⟩
        | none => ⟨w₁, newSheet, ev₀ ++ [evNet]⟩

/-- The months 1 to 12 the year orchestrator iterates, in order
(src/fetch.py line 164). -/
def yearMonths : List Nat := [1, 2, 3, 4, 5, 6, 7, 8, 9, 10, 11, 12]

/-- One iteration of the month loop of src/fetch.py lines 164 and 165:
run the month fetcher in workbook mode on the accumulated sheet, keeping
the event log. -/
def yearStep (now : Now) (city year : String) (resps : Nat → Response)
    (w₁ : World) (acc : Sheet × List Event) (m : Nat) : Sheet × List Event :=
  let out := fetch_weather_data now (.workbook acc.1) city year
    (Nat.repr m) (resps m) w₁
  (out.sheet, acc.2 ++ out.events)

/-- src/fetch.py lines 136 to 169, fetch_weather_data_year: open or
create the backing file, run fetch_weather_data in workbook mode for the
months 1 to 12 in ascending order against the same in-memory sheet, then
perform the one save of the accumulated sheet. The resps argument gives
the network response for each month. -/
def fetch_weather_data_year (now : Now) (fname city year : String)
    (resps : Nat → Response) (w : World) : FetchOutcome :=
  let w₁ := openWorld w fname
  let res := yearMonths.foldl (yearStep now city year resps w₁)
    (openSheet w fname, [Event.openOrCreate fname (getFile w fname).isNone])
  ⟨setFile w₁ fname res.1, res.1, res.2 ++ [Event.save fname]⟩

/-- Closed form of what one workbook-mode month fetch appends: nothing on
a validation failure, a network failure or a missing table, the processed
rows of the page otherwise. -/
def monthContribution (now : Now) (year month : String) (resp : Response) : Sheet :=
  if yearOutOfRange now year || monthOutOfRange now year month then []
  else
    match resp with
    | .page trRows => processRows year (padMonth month) (trRows.drop 1)
    | _ => []

/-- Closed form of the events one workbook-mode month fetch emits: none on
a validation failure, the one network request otherwise. -/
def monthEvents (now : Now) (city year month : String) : List Event :=
  if yearOutOfRange now year || monthOutOfRange now year month then []
  else [Event.netRequest (requestUrl city year (padMonth month))]

/-- One row of the dataframe the aggregators of src/analyse.py read back
from a saved sheet: the year, month, day and night condition (none models
a NaN read from an empty cell, which dropna removes), and the two wind
strings. -/
structure DataRow where
  year : String
  month : String
  dayCond : Option String
  nightCond : Option String
  dayWind : String
  nightWind : String
deriving DecidableEq, Repr

/-- src/analyse.py lines 81 to 84, extract_wind_force: the part after the
last space when the text contains a space, otherwise None. -/
def extract_wind_force (text : String) : Option String :=
  if text.data.contains ' ' then some ((pySplit ' ' text).getLastD "") else none

/-- src/analyse.py lines 88 and 164: df's year column nunique, the number
of distinct year values in the full sheet. -/
def yearsCount (df : List DataRow) : Nat :=
  ((df.map DataRow.year).dedup).length

/-- src/analyse.py lines 90 to 95: the (month, force-level) occurrences,
all day rows then all night rows, rows whose wind text yields no level
dropped. -/
def windOccurrences (df : List DataRow) : List (String × String) :=
  ((df.map fun r => (r.month, extract_wind_force r.dayWind)) ++
   (df.map fun r => (r.month, extract_wind_force r.nightWind))).filterMap
    fun p => p.2.map fun lvl => (p.1, lvl)

/-- src/analyse.py line 96: the raw occurrence count of one
(month, force-level) group. -/
def windRawCount (df : List DataRow) (month lvl : String) : Nat :=
  (windOccurrences df).count (month, lvl)

/-- src/analyse.py line 97: the annualized count, the raw count divided by
the distinct-year count of the full sheet. -/
def windAnnualized (df : List DataRow) (month lvl : String) : ℚ :=
  (windRawCount df month lvl : ℚ) / (yearsCount df : ℚ)

/-- src/analyse.py lines 157 to 162: the (month, condition) occurrences,
all day rows then all night rows, NaN conditions dropped. -/
def weatherOccurrences (df : List DataRow) : List (String × String) :=
  (df.filterMap fun r => r.dayCond.map fun c => (r.month, c)) ++
  (df.filterMap fun r => r.nightCond.map fun c => (r.month, c))

/-- src/analyse.py line 163: the raw occurrence count of one
(month, condition) group. -/
def weatherRawCount (df : List DataRow) (month cond : String) : Nat :=
  (weatherOccurrences df).count (month, cond)

/-- src/analyse.py line 165: the annualized condition count. -/
def weatherAnnualized (df : List DataRow) (month cond : String) : ℚ :=
  (weatherRawCount df month cond : ℚ) / (yearsCount df : ℚ)

/-- src/analyse.py lines 99 to 108, get_wind_sort_key: look at the first
character and, when the label is longer than two characters, the third;
two digits give d1 * 10 + d3, a leading digit alone gives d1 * 10, and
anything else the sentinel 99. The empty label, on which Python raises
IndexError for level_string[0], yields none. (Char.isDigit is the ASCII
digit test; the force-level labels only ever carry ASCII digits.) -/
def get_wind_sort_key (s : String) : Option Nat :=
  match s.data with
  | [] => none
  | m₁ :: rest =>
      let m₃ := match rest with
        | _ :: c :: _ => some c
        | _ => none
      match m₃ with
      | some c =>
          if m₁.isDigit && c.isDigit then
            some ((m₁.toNat - 48) * 10 + (c.toNat - 48))
          else if m₁.isDigit then some ((m₁.toNat - 48) * 10)
          else some 99
      | none =>
          if m₁.isDigit then some ((m₁.toNat - 48) * 10) else some 99

/-- Total version of the sort key as the sorting call site sees it: the
labels reaching sorted are nonempty, so the default is unreachable. -/
def windSortKey (s : String) : Nat := (get_wind_sort_key s).getD 99

/-- Stable insertion of one label into a key-sorted list: placed after
every label of smaller or equal key. -/
def insertByKey (x : String) : List String → List String
  | [] => [x]
  | y :: ys => if windSortKey y ≤ windSortKey x then y :: insertByKey x ys
               else x :: y :: ys

/-- src/analyse.py line 111: Python sorted with get_wind_sort_key as key,
modelled as a stable insertion sort (Python's sort is stable). -/
def sortedWindLevels (levels : List String) : List String :=
  levels.foldl (fun acc x => insertByKey x acc) []

theorem mem_splitsAt (c : Char) :
    ∀ s p q : List Char, (p, q) ∈ splitsAt c s ↔ (s = p ++ c :: q ∧ '\n' ∉ p) := by
  intro s
  induction s with
  | nil =>
      intro p q
      constructor
      · intro h; simp [splitsAt] at h
      · rintro ⟨h, -⟩; exact absurd h (by simp)
  | cons x xs ih =>
      intro p q
      constructor
      · intro h
        rcases List.mem_append.mp h with h1 | h2
        · by_cases hnl : x = '\n'
          · rw [if_pos hnl] at h1; exact absurd h1 (List.not_mem_nil _)
          · rw [if_neg hnl] at h1
            rcases List.mem_map.mp h1 with ⟨⟨p₁, q₁⟩, hmem, hEq⟩
            rw [Prod.ext_iff] at hEq
            obtain ⟨hp, hq⟩ := hEq
            simp only at hp hq
            obtain ⟨hs₁, hnp₁⟩ := (ih p₁ q₁).mp hmem
            subst hp; subst hq; subst hs₁
            refine ⟨rfl, ?_⟩
            simp only [List.mem_cons, not_or]
            exact ⟨fun hh => hnl hh.symm, hnp₁⟩
        · by_cases hxc : x = c
          · rw [if_pos hxc] at h2
            have hEq := List.mem_singleton.mp h2
            rw [Prod.ext_iff] at hEq
            obtain ⟨hp, hq⟩ := hEq
            simp only at hp hq
            subst hp; subst hq; subst hxc
            exact ⟨rfl, List.not_mem_nil _⟩
          · rw [if_neg hxc] at h2; exact absurd h2 (List.not_mem_nil _)
      · rintro ⟨hs, hnp⟩
        cases p with
        | nil =>
            simp only [List.nil_append] at hs
            injection hs with h1 h2
            apply List.mem_append.mpr
            right
            rw [if_pos h1]
            subst h2
            exact List.mem_singleton.mpr rfl
        | cons y p₁ =>
            have hs' : x = y ∧ xs = p₁ ++ c :: q := by
              rw [List.cons_append] at hs
              exact ⟨by injection hs, by injection hs⟩
            obtain ⟨h1, h2⟩ := hs'
            subst h1
            have hxnl : ¬ x = '\n' := fun hh => hnp (by rw [← hh]; exact List.mem_cons_self _ _)
            have hnp₁ : '\n' ∉ p₁ := fun hh => hnp (List.mem_cons_of_mem _ hh)
            apply List.mem_append.mpr
            left
            rw [if_neg hxnl]
            exact List.mem_map.mpr ⟨(p₁, q), (ih p₁ q).mpr ⟨h2, hnp₁⟩, rfl⟩

theorem findSome?_isSome_iff {α β : Type} (f : α → Option β) :
    ∀ l : List α, (l.findSome? f).isSome ↔ ∃ x ∈ l, (f x).isSome := by
  intro l
  induction l with
  | nil => simp [List.findSome?]
  | cons x xs ih =>
      rw [List.findSome?_cons]
      cases h : f x with
      | none => simp [h, ih]
      | some b => simp [h]

theorem matchGroups_cons_isSome (c : Char) (cs : List Char) (s : List Char) :
    (matchGroups (c :: cs) s).isSome ↔
      ∃ p q, s = p ++ c :: q ∧ '\n' ∉ p ∧ (matchGroups cs q).isSome := by
  rw [matchGroups, findSome?_isSome_iff]
  constructor
  · rintro ⟨⟨p, q⟩, hmem, hsome⟩
    obtain ⟨hs, hnp⟩ := (mem_splitsAt c s p q).mp hmem
    exact ⟨p, q, hs, hnp, by simpa using hsome⟩
  · rintro ⟨p, q, hs, hnp, hsome⟩
    exact ⟨(p, q), (mem_splitsAt c s p q).mpr ⟨hs, hnp⟩, by simpa using hsome⟩

theorem matchGroups_length :
    ∀ (cs : List Char) (s : List Char) (gs : List (List Char)),
      matchGroups cs s = some gs → gs.length = cs.length := by
  intro cs
  induction cs with
  | nil => intro s gs h; simp [matchGroups] at h; simp [← h]
  | cons c cs ih =>
      intro s gs h
      rw [matchGroups] at h
      obtain ⟨⟨p, q⟩, hmem, hsome⟩ := List.exists_of_findSome?_eq_some h
      simp only [Option.map_eq_some'] at hsome
      obtain ⟨gs₁, hgs₁, hEq⟩ := hsome
      rw [← hEq]
      simp [ih q gs₁ hgs₁]

theorem matchDate_isSome_iff_matchGroups (s : String) :
    (matchDate s).isSome ↔ (matchGroups ['年', '月', '日'] s.data).isSome := by
  rw [matchDate]
  cases h : matchGroups ['年', '月', '日'] s.data with
  | none => simp
  | some gs =>
      have hlen := matchGroups_length _ _ _ h
      match gs, hlen with
      | [g1, g2, g3], _ => simp

/-- A date cell matches the pattern exactly when it decomposes, from its
first character on, as group, the year character, group, the month
character, group, the day character, anything; the groups may not cross a
newline and are otherwise arbitrary. -/
theorem matchDate_isSome_iff (s : String) :
    (matchDate s).isSome ↔
      ∃ a b c rest : List Char,
        s.data = a ++ '年' :: (b ++ '月' :: (c ++ '日' :: rest)) ∧
        '\n' ∉ a ∧ '\n' ∉ b ∧ '\n' ∉ c := by
  rw [matchDate_isSome_iff_matchGroups, matchGroups_cons_isSome]
  constructor
  · rintro ⟨a, q₁, hs₁, hna, h₁⟩
    rw [matchGroups_cons_isSome] at h₁
    obtain ⟨b, q₂, hs₂, hnb, h₂⟩ := h₁
    rw [matchGroups_cons_isSome] at h₂
    obtain ⟨c, q₃, hs₃, hnc, -⟩ := h₂
    exact ⟨a, b, c, q₃, by rw [hs₁, hs₂, hs₃], hna, hnb, hnc⟩
  · rintro ⟨a, b, c, rest, hs, hna, hnb, hnc⟩
    refine ⟨a, b ++ '月' :: (c ++ '日' :: rest), hs, hna, ?_⟩
    rw [matchGroups_cons_isSome]
    refine ⟨b, c ++ '日' :: rest, rfl, hnb, ?_⟩
    rw [matchGroups_cons_isSome]
    exact ⟨c, rest, rfl, hnc, by simp [matchGroups]⟩

theorem extractRow_isSome (year month : String) (r : RawRow) :
    (extractRow year month r).isSome = (matchDate r.dateCell).isSome := by
  rw [extractRow]
  cases h : matchDate r.dateCell with
  | none => simp
  | some g =>
      match g with
      | (g1, g2, g3) => simp

theorem extractRow_eq_none_of_matchDate (year month : String) (r : RawRow)
    (h : matchDate r.dateCell = none) : extractRow year month r = none := by
  rw [extractRow, h]

theorem processRows_length (year month : String) :
    ∀ rows : List RawRow,
      (processRows year month rows).length =
        (rows.filter (fun r => (matchDate r.dateCell).isSome)).length := by
  intro rows
  induction rows with
  | nil => rfl
  | cons r rs ih =>
      simp only [processRows, List.filterMap_cons, List.filter_cons] at ih ⊢
      cases h : extractRow year month r with
      | none =>
          have hm : (matchDate r.dateCell).isSome = false := by
            rw [← extractRow_isSome year month r, h]; rfl
          simp [hm, ih]
      | some v =>
          have hm : (matchDate r.dateCell).isSome = true := by
            rw [← extractRow_isSome year month r, h]; rfl
          simp [hm, ih]

theorem processRows_splice (year month : String) (bad : RawRow)
    (h : matchDate bad.dateCell = none) (pre post : List RawRow) :
    processRows year month (pre ++ bad :: post) =
      processRows year month pre ++ processRows year month post := by
  simp only [processRows, List.filterMap_append, List.filterMap_cons,
    extractRow_eq_none_of_matchDate year month bad h]

theorem getFile_setFile (w : World) (k : String) (v : Sheet) :
    getFile (setFile w k v) k = some v := by
  induction w with
  | nil => simp [setFile, getFile]
  | cons pair rest ih =>
      obtain ⟨k₁, v₁⟩ := pair
      by_cases h : k₁ = k
      · simp [setFile, getFile, h]
      · simp [setFile, getFile, h, ih]

theorem lstrip_padMonth (m : String) : lstrip '0' (padMonth m) = lstrip '0' m := by
  rw [padMonth]
  by_cases h : m.data.length = 1
  · rw [if_pos h, lstrip, lstrip]
    have hd : ("0" ++ m).data = '0' :: m.data := by
      cases m with
      | mk l => rfl
    rw [hd, List.dropWhile_cons]
    simp
  · rw [if_neg h]

theorem splitPairWith_of_ne_two (f : String → String) (cell : String)
    (h : (pySplit '/' cell).length ≠ 2) : splitPairWith f cell = ("", "") := by
  rw [splitPairWith]
  split
  · next a b heq => rw [heq] at h; simp at h
  · rfl

theorem fetch_wb (now : Now) (sh : Sheet) (city year month : String)
    (resp : Response) (w : World) :
    fetch_weather_data now (.workbook sh) city year month resp w =
      ⟨w, sh ++ monthContribution now year month resp,
        monthEvents now city year month⟩ := by
  cases resp <;> by_cases hy : yearOutOfRange now year <;>
    by_cases hm : monthOutOfRange now year month <;>
    simp [fetch_weather_data, monthContribution, monthEvents, hy, hm, inputSheet]

theorem year_foldl (now : Now) (city year : String) (resps : Nat → Response)
    (w₁ : World) :
    ∀ (ms : List Nat) (sh : Sheet) (ev : List Event),
      ms.foldl (yearStep now city year resps w₁) (sh, ev) =
        (sh ++ (ms.map fun m => monthContribution now year (Nat.repr m) (resps m)).flatten,
         ev ++ (ms.map fun m => monthEvents now city year (Nat.repr m)).flatten) := by
  intro ms
  induction ms with
  | nil => intro sh ev; simp
  | cons m ms ih =>
      intro sh ev
      rw [List.foldl_cons]
      have hstep : yearStep now city year resps w₁ (sh, ev) m =
          (sh ++ monthContribution now year (Nat.repr m) (resps m),
           ev ++ monthEvents now city year (Nat.repr m)) := by
        rw [yearStep, fetch_wb]
      rw [hstep, ih]
      simp

theorem monthEvents_no_save (now : Now) (city year month : String) :
    (monthEvents now city year month).filter isSave = [] := by
  rw [monthEvents]
  split
  · rfl
  · rfl

/-- C1 counterexample: a row whose date cell is a年b月c日 contains no
numeric group at all (every character of the cell fails isDigit), yet the
row loop appends one record for it instead of the zero records the claim
requires for a cell without three numeric groups. -/
theorem claim_C1_counterexample :
    processRows "2023" "03"
      [⟨"a年b月c日", "晴/多云", "10℃/2℃", "北风 3级/南风 2级"⟩] =
      [["2023", "3", "c", "晴", "多云", "10", "2", "北风 3级", "南风 2级"]] ∧
    ("a年b月c日").data.all (fun ch => !ch.isDigit) = true := by
  constructor
  · decide
  · decide

/-- C1 (amended): a row is appended exactly when its date cell matches the
source pattern of three groups separated by the year, month and day
characters — the groups are arbitrary newline-free strings, not
necessarily numeric — and a row failing the pattern is skipped while the
rows before and after it are still extracted normally: splicing such a row
into a row list leaves the extraction of the surrounding rows unchanged. -/
theorem claim_C1_amended :
    (∀ (year month : String) (r : RawRow),
      (extractRow year month r).isSome ↔
        ∃ a b c rest : List Char,
          r.dateCell.data = a ++ '年' :: (b ++ '月' :: (c ++ '日' :: rest)) ∧
          '\n' ∉ a ∧ '\n' ∉ b ∧ '\n' ∉ c) ∧
    (∀ (year month : String) (bad : RawRow), matchDate bad.dateCell = none →
      ∀ pre post, processRows year month (pre ++ bad :: post) =
        processRows year month pre ++ processRows year month post) := by
  constructor
  · intro year month r
    rw [extractRow_isSome]
    exact matchDate_isSome_iff r.dateCell
  · intro year month bad h pre post
    exact processRows_splice year month bad h pre post

/-- C1 witness: the example row of the spec matches and is extracted, and
the non-matching cell 2023-03-05 is skipped with its two neighbour rows
extracted exactly as if it were not there. -/
theorem claim_C1_witness :
    (extractRow "2023" "03"
      ⟨"2023年3月5日", "晴/多云", "10℃/2℃", "北风 3级/南风 2级"⟩).isSome ∧
    processRows "2023" "03"
      [⟨"2023年3月4日", "晴/晴", "9℃/1℃", "北风 3级/北风 2级"⟩,
       ⟨"2023-03-05", "晴/多云", "10℃/2℃", "北风 3级/南风 2级"⟩,
       ⟨"2023年3月6日", "多云/阴", "11℃/3℃", "南风 2级/南风 2级"⟩] =
      processRows "2023" "03" [⟨"2023年3月4日", "晴/晴", "9℃/1℃", "北风 3级/北风 2级"⟩] ++
      processRows "2023" "03" [⟨"2023年3月6日", "多云/阴", "11℃/3℃", "南风 2级/南风 2级"⟩] := by
  constructor
  · exact (claim_C1_amended.1 "2023" "03"
      ⟨"2023年3月5日", "晴/多云", "10℃/2℃", "北风 3级/南风 2级"⟩).mpr
      ⟨['2', '0', '2', '3'], ['3'], ['5'], [], by decide, by decide, by decide, by decide⟩
  · exact claim_C1_amended.2 "2023" "03"
      ⟨"2023-03-05", "晴/多云", "10℃/2℃", "北风 3级/南风 2级"⟩ (by decide)
      [⟨"2023年3月4日", "晴/晴", "9℃/1℃", "北风 3级/北风 2级"⟩]
      [⟨"2023年3月6日", "多云/阴", "11℃/3℃", "南风 2级/南风 2级"⟩]

/-- C2: fetching year 2023 month 3, the well-formed example row extracts
to exactly one appended record with the requested year, the month and day
with leading zeros stripped, the split conditions and winds, and the
temperatures with the trailing degree suffix removed. -/
theorem claim_C2 :
    (fetch_weather_data ⟨2025, 10⟩ (.workbook [header]) "dalian" "2023" "3"
      (.page [⟨"日期", "天气状况", "气温", "风力风向"⟩,
              ⟨"2023年3月5日", "晴/多云", "10℃/2℃", "北风 3级/南风 2级"⟩]) []).sheet =
    [header, ["2023", "3", "5", "晴", "多云", "10", "2", "北风 3级", "南风 2级"]] := by
  decide

/-- C3: for every date-matching row the three category cells are split
independently on the slash; a category whose split does not give exactly
two parts gets the empty marker in both of its fields while the record is
still appended with the other categories filled from their own cells. -/
theorem claim_C3 :
    ∀ (year month : String) (r : RawRow),
      (matchDate r.dateCell).isSome →
      (extractRow year month r).isSome ∧
      (∀ g1 g2 g3, matchDate r.dateCell = some (g1, g2, g3) →
        extractRow year month r =
          some [year, lstrip '0' month, lstrip '0' g3,
            (condFields r.condCell).1, (condFields r.condCell).2,
            (tempFields r.tempCell).1, (tempFields r.tempCell).2,
            (windFields r.windCell).1, (windFields r.windCell).2]) ∧
      ((pySplit '/' r.condCell).length ≠ 2 → condFields r.condCell = ("", "")) ∧
      ((pySplit '/' r.tempCell).length ≠ 2 → tempFields r.tempCell = ("", "")) ∧
      ((pySplit '/' r.windCell).length ≠ 2 → windFields r.windCell = ("", "")) := by
  intro year month r h
  refine ⟨?_, ?_, ?_, ?_, ?_⟩
  · rw [extractRow_isSome]; exact h
  · intro g1 g2 g3 hm
    rw [extractRow, hm]
  · exact splitPairWith_of_ne_two pyStrip r.condCell
  · exact splitPairWith_of_ne_two (fun t => rstrip '℃' (pyStrip t)) r.tempCell
  · exact splitPairWith_of_ne_two pyStrip r.windCell

/-- C3 witness: a row whose temperature cell has no slash is still
appended, with both temperature fields empty and the other categories
populated. -/
theorem claim_C3_witness :
    extractRow "2023" "03"
      ⟨"2023年3月5日", "晴/多云", "10", "北风 3级/南风 2级"⟩ =
      some ["2023", "3", "5", "晴", "多云", "", "", "北风 3级", "南风 2级"] := by
  have h := claim_C3 "2023" "03"
    ⟨"2023年3月5日", "晴/多云", "10", "北风 3级/南风 2级"⟩ (by decide)
  have h2 := h.2.1 "2023" "3" "5" (by decide)
  rw [h2]
  decide

/-- C4: with an out-of-range year or month — below 2011, above the current
year, outside 1..12, or ahead of the current month in the current year —
the month fetcher returns with no side effect: the durable store and the
in-memory sheet are unchanged and no file, network or save event occurs. -/
theorem claim_C4 :
    ∀ (now : Now) (file : FileArg) (city year month : String)
      (resp : Response) (w : World),
      (pyInt year < 2011 ∨ pyInt year > now.year ∨ pyInt month < 1 ∨
        pyInt month > 12 ∨ (pyInt year = now.year ∧ pyInt month > now.month)) →
      fetch_weather_data now file city year month resp w = ⟨w, inputSheet file, []⟩ := by
  intro now file city year month resp w h
  rw [fetch_weather_data.eq_def]
  by_cases hy : yearOutOfRange now year
  · rw [if_pos hy]
  · rw [if_neg hy]
    have hy' : ¬ (pyInt year < 2011) ∧ ¬ (pyInt year > now.year) := by
      rw [yearOutOfRange] at hy
      simpa [not_or] using hy
    have hm : monthOutOfRange now year month = true := by
      rw [monthOutOfRange]
      simp only [Bool.or_eq_true, Bool.and_eq_true, decide_eq_true_eq, beq_iff_eq]
      omega
    rw [if_pos hm]

/-- C4 witness: year 2010 is rejected with no effect at all. -/
theorem claim_C4_witness :
    fetch_weather_data ⟨2025, 10⟩ (.workbook [header]) "dalian" "2010" "3"
      Response.httpError [] = ⟨[], [header], []⟩ :=
  claim_C4 ⟨2025, 10⟩ (.workbook [header]) "dalian" "2010" "3" Response.httpError []
    (Or.inl (by decide))

/-- C5 counterexample: with a valid year and month but no existing backing
file, a failing network response still leaves a durable change — the call
creates and saves the header-only backing file before the request, so the
durable store for the dataset name differs after the call. -/
theorem claim_C5_counterexample :
    getFile ([] : World) "ds" = none ∧
    getFile (fetch_weather_data ⟨2025, 10⟩ (.name "ds") "dalian" "2023" "3"
      Response.httpError []).world "ds" = some [header] := by
  constructor
  · rfl
  · decide

/-- C5 (amended): with a valid year and month and a non-success status no
row is appended and no save is performed; the durable store is unchanged
whenever the backing file already exists, and in workbook mode; when the
backing file is missing, the open step creates the header-only file before
the request and that creation is the only durable change. -/
theorem claim_C5_amended :
    ∀ (now : Now) (city year month fname : String) (w : World),
      yearOutOfRange now year = false →
      monthOutOfRange now year month = false →
      (∀ rows, getFile w fname = some rows →
        fetch_weather_data now (.name fname) city year month Response.httpError w =
          ⟨w, rows, [Event.openOrCreate fname false,
            Event.netRequest (requestUrl city year (padMonth month))]⟩) ∧
      (getFile w fname = none →
        fetch_weather_data now (.name fname) city year month Response.httpError w =
          ⟨setFile w fname [header], [header], [Event.openOrCreate fname true,
            Event.netRequest (requestUrl city year (padMonth month))]⟩) ∧
      (∀ sh, fetch_weather_data now (.workbook sh) city year month Response.httpError w =
        ⟨w, sh, [Event.netRequest (requestUrl city year (padMonth month))]⟩) := by
  intro now city year month fname w hy hm
  refine ⟨?_, ?_, ?_⟩
  · intro rows hr
    simp [fetch_weather_data, hy, hm, openWorld, openSheet, hr]
  · intro hr
    simp [fetch_weather_data, hy, hm, openWorld, openSheet, hr]
  · intro sh
    simp [fetch_weather_data, hy, hm]

/-- C5 witness: against an existing header-only dataset, a failed fetch of
2023-03 leaves the store exactly as it was, appends nothing, and emits
only the open and request events. -/
theorem claim_C5_witness :
    fetch_weather_data ⟨2025, 10⟩ (.name "ds") "dalian" "2023" "3"
      Response.httpError [("ds", [header])] =
      ⟨[("ds", [header])], [header],
        [Event.openOrCreate "ds" false,
         Event.netRequest "https://www.tianqihoubao.com/lishi/dalian/month/202303.html"]⟩ := by
  have h := (claim_C5_amended ⟨2025, 10⟩ "dalian" "2023" "3" "ds" [("ds", [header])]
    (by decide) (by decide)).1 [header] (by decide)
  rw [h]
  decide

/-- C6: the year orchestrator opens or creates the one store session, runs
the twelve month fetches sequentially in ascending order 1 to 12 into the
same in-memory sheet — the final sheet is the opened sheet followed by the
twelve month contributions in that order, a month that fails validation,
network or parsing contributing nothing while the remaining months still
run — and performs exactly one save, as the last event of the run, writing
the accumulated sheet. -/
theorem claim_C6 :
    ∀ (now : Now) (fname city year : String) (resps : Nat → Response) (w : World),
      (fetch_weather_data_year now fname city year resps w).sheet =
        openSheet w fname ++
          (yearMonths.map fun m => monthContribution now year (Nat.repr m) (resps m)).flatten ∧
      (fetch_weather_data_year now fname city year resps w).events =
        Event.openOrCreate fname (getFile w fname).isNone ::
          ((yearMonths.map fun m => monthEvents now city year (Nat.repr m)).flatten ++
            [Event.save fname]) ∧
      (fetch_weather_data_year now fname city year resps w).events.filter isSave =
        [Event.save fname] ∧
      (fetch_weather_data_year now fname city year resps w).events.getLast? =
        some (Event.save fname) ∧
      (fetch_weather_data_year now fname city year resps w).world =
        setFile (openWorld w fname) fname
          (fetch_weather_data_year now fname city year resps w).sheet ∧
      (∀ m : Nat, monthContribution now year (Nat.repr m) Response.httpError = [] ∧
        monthContribution now year (Nat.repr m) Response.noTable = []) := by
  intro now fname city year resps w
  have h1 := year_foldl now city year resps (openWorld w fname) yearMonths
    (openSheet w fname) [Event.openOrCreate fname (getFile w fname).isNone]
  have hnos : ∀ ms : List Nat,
      ((ms.map fun m => monthEvents now city year (Nat.repr m)).flatten).filter isSave = [] := by
    intro ms
    induction ms with
    | nil => rfl
    | cons m ms ih =>
        simp only [List.map_cons, List.flatten_cons, List.filter_append,
          monthEvents_no_save, List.nil_append, ih]
  refine ⟨?_, ?_, ?_, ?_, ?_, ?_⟩
  · simp only [fetch_weather_data_year, h1]
  · simp only [fetch_weather_data_year, h1]
    simp
  · simp only [fetch_weather_data_year, h1]
    simp [List.filter_append, hnos, isSave]
  · simp only [fetch_weather_data_year, h1]
    rw [List.getLast?_concat]
  · simp only [fetch_weather_data_year, h1]
  · intro m
    constructor <;> exact ite_self []

/-- C7: a fetch-and-append against an existing dataset stores exactly the
old rows followed by the newly extracted ones, so the stored row count
grows by exactly the number of page rows whose date cell matches — the
store never deduplicates. -/
theorem claim_C7 :
    ∀ (now : Now) (city year month fname : String) (w : World)
      (rows : Sheet) (trRows : List RawRow),
      yearOutOfRange now year = false →
      monthOutOfRange now year month = false →
      getFile w fname = some rows →
      getFile (fetch_weather_data now (.name fname) city year month
        (.page trRows) w).world fname =
        some (rows ++ processRows year (padMonth month) (trRows.drop 1)) ∧
      (rows ++ processRows year (padMonth month) (trRows.drop 1)).length =
        rows.length +
          ((trRows.drop 1).filter fun r => (matchDate r.dateCell).isSome).length := by
  intro now city year month fname w rows trRows hy hm hr
  constructor
  · simp [fetch_weather_data, hy, hm, openWorld, openSheet, hr, getFile_setFile]
  · simp [processRows_length]

/-- C7 witness: fetching the example page into a dataset that already
holds the header appends the one matching row, growing the stored sheet
from one row to two. -/
theorem claim_C7_witness :
    getFile (fetch_weather_data ⟨2025, 10⟩ (.name "ds") "dalian" "2023" "3"
      (.page [⟨"日期", "天气状况", "气温", "风力风向"⟩,
              ⟨"2023年3月5日", "晴/多云", "10℃/2℃", "北风 3级/南风 2级"⟩])
      [("ds", [header])]).world "ds" =
      some [header, ["2023", "3", "5", "晴", "多云", "10", "2", "北风 3级", "南风 2级"]] := by
  have h := claim_C7 ⟨2025, 10⟩ "dalian" "2023" "3" "ds" [("ds", [header])] [header]
    [⟨"日期", "天气状况", "气温", "风力风向"⟩,
     ⟨"2023年3月5日", "晴/多云", "10℃/2℃", "北风 3级/南风 2级"⟩]
    (by decide) (by decide) (by decide)
  rw [h.1]
  decide

/-- C8: both the wind and the condition aggregate divide each raw
(month, label) occurrence count by the number of distinct year values of
the full source sheet, so on a sheet with exactly one distinct year the
annualized counts equal the raw occurrence counts. -/
theorem claim_C8 :
    ∀ (df : List DataRow) (month lvl cond : String),
      windAnnualized df month lvl =
        (windRawCount df month lvl : ℚ) / (yearsCount df : ℚ) ∧
      weatherAnnualized df month cond =
        (weatherRawCount df month cond : ℚ) / (yearsCount df : ℚ) ∧
      (yearsCount df = 1 →
        windAnnualized df month lvl = (windRawCount df month lvl : ℚ) ∧
        weatherAnnualized df month cond = (weatherRawCount df month cond : ℚ)) := by
  intro df month lvl cond
  refine ⟨rfl, rfl, fun h => ⟨?_, ?_⟩⟩
  · rw [windAnnualized, h]
    simp
  · rw [weatherAnnualized, h]
    simp

/-- C8 witness: a one-row sheet has one distinct year, so its annualized
counts are the raw counts. -/
theorem claim_C8_witness :
    windAnnualized [⟨"2023", "3", some "晴", some "多云", "北风 3级", "南风 2级"⟩]
        "3" "3级" =
      (windRawCount [⟨"2023", "3", some "晴", some "多云", "北风 3级", "南风 2级"⟩]
        "3" "3级" : ℚ) ∧
    weatherAnnualized [⟨"2023", "3", some "晴", some "多云", "北风 3级", "南风 2级"⟩]
        "3" "晴" =
      (weatherRawCount [⟨"2023", "3", some "晴", some "多云", "北风 3级", "南风 2级"⟩]
        "3" "晴" : ℚ) :=
  (claim_C8 [⟨"2023", "3", some "晴", some "多云", "北风 3级", "南风 2级"⟩]
    "3" "3级" "晴").2.2 (by decide)

/-- C9: the wind sort key, its cases read in order: a digit in the first
position and a digit in the third give d1 * 10 + d3 (covering every label
of the dash pattern of two digits separated by one non-digit), a single
leading digit with no digit in the next two positions gives d1 * 10, and
no leading digit gives the sentinel 99; the four example labels get keys
30, 34, 40 and 99 and sort in that order, the sentinel label kept last
rather than excluded. -/
theorem claim_C9 :
    (∀ (s : String) (d1 x d2 : Char) (rest : List Char),
      s.data = d1 :: x :: d2 :: rest → d1.isDigit → ¬ x.isDigit → d2.isDigit →
      get_wind_sort_key s = some ((d1.toNat - 48) * 10 + (d2.toNat - 48))) ∧
    (∀ (s : String) (d1 : Char) (rest : List Char),
      s.data = d1 :: rest → d1.isDigit → (∀ c ∈ rest.take 2, ¬ c.isDigit) →
      get_wind_sort_key s = some ((d1.toNat - 48) * 10)) ∧
    (∀ (s : String) (c : Char) (rest : List Char),
      s.data = c :: rest → ¬ c.isDigit → get_wind_sort_key s = some 99) ∧
    [get_wind_sort_key "3级", get_wind_sort_key "3-4级", get_wind_sort_key "4级",
      get_wind_sort_key "无持续风向"] = [some 30, some 34, some 40, some 99] ∧
    sortedWindLevels ["无持续风向", "4级", "3-4级", "3级"] =
      ["3级", "3-4级", "4级", "无持续风向"] := by
  refine ⟨?_, ?_, ?_, by decide, by decide⟩
  · intro s d1 x d2 rest hs h1 hx h2
    rw [get_wind_sort_key, hs]
    simp [h1, h2]
  · intro s d1 rest hs h1 hrest
    rw [get_wind_sort_key, hs]
    match rest, hrest with
    | [], _ => simp [h1]
    | [a], _ => simp [h1]
    | a :: b :: t, hr =>
        have hb : ¬ b.isDigit := hr b (by simp)
        simp only [Bool.not_eq_true] at hb
        simp [h1, hb]
  · intro s c rest hs hc
    rw [get_wind_sort_key, hs]
    simp only [Bool.not_eq_true] at hc
    match rest with
    | [] => simp [hc]
    | [a] => simp [hc]
    | a :: b :: t => simp [hc]

/-- C9 witness: the three cases applied to the three shapes among the
labels of the example reproduce the stated keys. -/
theorem claim_C9_witness :
    get_wind_sort_key "3-4级" = some 34 ∧ get_wind_sort_key "3级" = some 30 ∧
    get_wind_sort_key "无持续风向" = some 99 := by
  refine ⟨?_, ?_, ?_⟩
  · have h := claim_C9.1 "3-4级" '3' '-' '4' ['级'] (by decide) (by decide)
      (by decide) (by decide)
    rw [h]
    decide
  · have h := claim_C9.2.1 "3级" '3' ['级'] (by decide) (by decide) (by decide)
    rw [h]
    decide
  · have h := claim_C9.2.2.1 "无持续风向" '无' "持续风向".data (by decide) (by decide)
    rw [h]

/-- C10: every record appended by the row loop stores the fetcher's year
argument in the year column and its month argument, leading zeros
stripped, in the month column — independent of what the date cell says —
and a page row naming the year 1999 and the month 12 fetched as 2023
month 3 is stored under year 2023, month 3, with only the day taken from
the date cell. -/
theorem claim_C10 :
    (∀ (year month : String) (trRows : List RawRow) (rec : List String),
      rec ∈ processRows year (padMonth month) trRows →
      rec.take 2 = [year, lstrip '0' month]) ∧
    processRows "2023" (padMonth "3")
      [⟨"1999年12月31日", "晴/多云", "10℃/2℃", "北风 3级/南风 2级"⟩] =
      [["2023", "3", "31", "晴", "多云", "10", "2", "北风 3级", "南风 2级"]] := by
  constructor
  · intro year month trRows rec hmem
    rw [processRows] at hmem
    obtain ⟨r, hr, hex⟩ := List.mem_filterMap.mp hmem
    rw [extractRow] at hex
    cases hmd : matchDate r.dateCell with
    | none => rw [hmd] at hex; cases hex
    | some g =>
        rw [hmd] at hex
        obtain ⟨g1, g2, g3⟩ := g
        simp only [Option.some.injEq] at hex
        rw [← hex]
        simp [lstrip_padMonth]
  · decide

/-- C10 witness: the record of the mismatched-date example starts with the
requested year and the stripped requested month. -/
theorem claim_C10_witness :
    (["2023", "3", "31", "晴", "多云", "10", "2", "北风 3级", "南风 2级"] :
        List String).take 2 = ["2023", lstrip '0' "3"] :=
  claim_C10.1 "2023" "3"
    [⟨"1999年12月31日", "晴/多云", "10℃/2℃", "北风 3级/南风 2级"⟩]
    ["2023", "3", "31", "晴", "多云", "10", "2", "北风 3级", "南风 2级"] (by decide)

end WeatherAnalyse
